import Mathlib

/-! Verification of the sensor-source reconciliation and selection subsystem of
WebMonitor-for-WinServer, shallowly embedded from src/LHML.py.

Modelling conventions:
* Python float sensor values are modelled as exact rationals; none of the
  verified code paths depends on rounding, and NaN never reaches the
  comparisons modelled here because every candidate value is produced by
  float(...) on a backend reading.
* Python strings are modelled as Lean strings; the string operations used by
  the source (lower-casing, substring containment, startswith, strip,
  isdigit, int parsing, split) are re-implemented over character lists so
  that they evaluate inside proofs.
* Backend state (the LibreHardwareMonitor computer object, the WMI records,
  the on-disk config file, the interactive terminal) is passed explicitly as
  environment data; exceptions are modelled by Option results.
-/

namespace WebMonitor

/-! ### String helpers (Python str.lower, "in", startswith, strip, isdigit, int) -/

/-- Boolean list-prefix test on characters. -/
def isPrefixL : List Char → List Char → Bool
  | [], _ => true
  | _ :: _, [] => false
  | a :: as, b :: bs => a == b && isPrefixL as bs

/-- Boolean substring test: does the second list contain the first as a
contiguous sublist? Models the Python expression needle in hay. -/
def containsSub (needle : List Char) : List Char → Bool
  | [] => needle.isEmpty
  | a :: rest => isPrefixL needle (a :: rest) || containsSub needle rest

/-- Characters of a string, lower-cased. Models s.lower(). -/
def lowerStr (s : String) : List Char := s.data.map Char.toLower

/-- Models kw in s.lower() for an already lower-case keyword kw. -/
def strHas (s : String) (kw : String) : Bool := containsSub kw.data (lowerStr s)

/-- Case-sensitive substring test on strings (Python needle in hay). -/
def strHasCase (hay : String) (needle : String) : Bool := containsSub needle.data hay.data

/-- Models Python str.strip() (whitespace from both ends). -/
def trimL (l : List Char) : List Char :=
  ((l.dropWhile Char.isWhitespace).reverse.dropWhile Char.isWhitespace).reverse

/-- Value of a nonempty all-digit character list, as int(...) computes it. -/
def digitsVal (l : List Char) : Nat := l.foldl (fun n c => n * 10 + (c.toNat - 48)) 0

/-- Models int(...) truncation toward zero as applied by the source to float
aggregates (int(x) for a float x). -/
def pyTrunc (q : ℚ) : ℤ := if 0 ≤ q then ⌊q⌋ else ⌈q⌉

/-! ### Data model: sensors, hardware nodes, selection candidates

From the LibreHardwareMonitor object graph used by src/LHML.py: a hardware
node has a HardwareType (kept as the string str(hw.HardwareType)), a display
name, sensors, and recursive sub-hardware. A sensor has a SensorType string,
a display name, a stable identifier and an optional current value. -/

structure Sensor where
  sensorType : String
  name : String
  ident : String
  value : Option ℚ
deriving DecidableEq

inductive Hardware where
  | mk (hardwareType : String) (name : String) (sensors : List Sensor) (sub : List Hardware)

def Hardware.hardwareType : Hardware → String
  | .mk t _ _ _ => t

def Hardware.name : Hardware → String
  | .mk _ n _ _ => n

def Hardware.sensors : Hardware → List Sensor
  | .mk _ _ ss _ => ss

def Hardware.sub : Hardware → List Hardware
  | .mk _ _ _ su => su

mutual

/-- All sensors of a node and, recursively, of its sub-hardware, in the
depth-first order of SensorSelector._iter_lhm_sensors_recursive. -/
def Hardware.walkSensors : Hardware → List Sensor
  | .mk _ _ ss su => ss ++ walkSensorsList su

def walkSensorsList : List Hardware → List Sensor
  | [] => []
  | h :: t => h.walkSensors ++ walkSensorsList t

end

/-- A selection candidate as built by list_temp_candidates and
list_fan_candidates (LHML.py lines 673-753): a dict with keys type, id,
name, value. -/
structure Cand where
  type : String
  id : String
  name : String
  value : Option ℚ
deriving DecidableEq

/-- The key float(x[value]) used by the max calls of the auto pickers; only
applied to candidates whose value passed the okv filter, hence present. -/
def candVal (c : Cand) : ℚ := c.value.getD 0

/-! ### AutoPicker (SensorSelector._auto_pick_temp, lines 755-770, and
SensorSelector._auto_pick_fan, lines 772-788) -/

/-- Filter okv of _auto_pick_temp: 0.5 < float(v) < 120.0, False when the
value is absent (float(None) raises, caught by the except). -/
def okvTemp : Option ℚ → Bool
  | none => false
  | some v => decide ((1 / 2 : ℚ) < v) && decide (v < 120)

/-- Filter okv of _auto_pick_fan: 1.0 <= float(v) < 20000.0, False when the
value is absent. -/
def okvFan : Option ℚ → Bool
  | none => false
  | some v => decide ((1 : ℚ) ≤ v) && decide (v < 20000)

/-- One step of the Python max(..., key=float(x[value])) scan: keep the
current best unless the new element is strictly greater (Python max keeps
the first maximal element). -/
def maxStep (best x : Cand) : Cand := if candVal best < candVal x then x else best

/-- Python max(lst, key=...) guarded by the emptiness test of the source
(the source only calls max on a nonempty list; the empty case is the
corresponding falsy branch). -/
def maxByValue : List Cand → Option Cand
  | [] => none
  | c :: cs => some (cs.foldl maxStep c)

/-- The cpu_like list of _auto_pick_temp: LHM candidates whose display name
contains one of package, tctl, tdie, cpu (case-insensitively) and whose
value passes okv. -/
def tempCpuLike (temps : List Cand) : List Cand :=
  temps.filter fun t =>
    t.type == "LHM"
      && (["package", "tctl", "tdie", "cpu"].any fun k => strHas t.name k)
      && okvTemp t.value

/-- The acpi list of _auto_pick_temp: WMI_ACPI candidates whose value passes
okv. -/
def tempAcpi (temps : List Cand) : List Cand :=
  temps.filter fun t => t.type == "WMI_ACPI" && okvTemp t.value

/-- SensorSelector._auto_pick_temp (LHML.py lines 755-770). -/
def auto_pick_temp (temps : List Cand) : Option Cand :=
  match maxByValue (tempCpuLike temps) with
  | some c => some c
  | none => maxByValue (tempAcpi temps)

/-- The pri list of _auto_pick_fan: LHM candidates whose display name
contains cpu, aio or pump and whose value passes okv. -/
def fanPri (fans : List Cand) : List Cand :=
  fans.filter fun f =>
    f.type == "LHM"
      && (["cpu", "aio", "pump"].any fun k => strHas f.name k)
      && okvFan f.value

/-- The lhm_any list of _auto_pick_fan: any LHM candidate whose value passes
okv. -/
def fanLhmAny (fans : List Cand) : List Cand :=
  fans.filter fun f => f.type == "LHM" && okvFan f.value

/-- The wmi_fans list of _auto_pick_fan: WMI_FAN candidates whose value
passes okv. -/
def fanWmi (fans : List Cand) : List Cand :=
  fans.filter fun f => f.type == "WMI_FAN" && okvFan f.value

/-- SensorSelector._auto_pick_fan (LHML.py lines 772-788). -/
def auto_pick_fan (fans : List Cand) : Option Cand :=
  match maxByValue (fanPri fans) with
  | some c => some c
  | none =>
    match maxByValue (fanLhmAny fans) with
    | some c => some c
    | none => maxByValue (fanWmi fans)

/-- A candidate of maximal value within a list. -/
def IsMaxOf (c : Cand) (l : List Cand) : Prop := c ∈ l ∧ ∀ x ∈ l, candVal x ≤ candVal c

/-- The picked fan candidate has a present value between 1.0 (inclusive) and
20000.0 (exclusive). -/
def FanValueInRange (c : Cand) : Prop := ∃ v, c.value = some v ∧ (1 : ℚ) ≤ v ∧ v < 20000

lemma maxStep_le_left (c y : Cand) : candVal c ≤ candVal (maxStep c y) := by
  unfold maxStep
  split
  · exact le_of_lt (by assumption)
  · exact le_refl _

lemma maxStep_le_right (c y : Cand) : candVal y ≤ candVal (maxStep c y) := by
  unfold maxStep
  split
  · exact le_refl _
  · exact le_of_not_lt (by assumption)

lemma foldl_maxStep_mem (cs : List Cand) (c : Cand) :
    cs.foldl maxStep c = c ∨ cs.foldl maxStep c ∈ cs := by
  induction cs generalizing c with
  | nil => exact Or.inl rfl
  | cons x xs ih =>
    simp only [List.foldl_cons]
    rcases ih (maxStep c x) with h | h
    · rw [h]
      unfold maxStep
      split
      · exact Or.inr (List.mem_cons_self _ _)
      · exact Or.inl rfl
    · exact Or.inr (List.mem_cons_of_mem _ h)

lemma foldl_maxStep_ge (cs : List Cand) (c : Cand) :
    candVal c ≤ candVal (cs.foldl maxStep c)
      ∧ ∀ x ∈ cs, candVal x ≤ candVal (cs.foldl maxStep c) := by
  induction cs generalizing c with
  | nil => exact ⟨le_refl _, by simp⟩
  | cons y ys ih =>
    obtain ⟨h1, h2⟩ := ih (maxStep c y)
    simp only [List.foldl_cons]
    refine ⟨le_trans (maxStep_le_left c y) h1, ?_⟩
    intro x hx
    rcases List.mem_cons.mp hx with rfl | hx
    · exact le_trans (maxStep_le_right c x) h1
    · exact h2 x hx

lemma maxByValue_isMax {l : List Cand} {c : Cand} (h : maxByValue l = some c) :
    IsMaxOf c l := by
  cases l with
  | nil => simp [maxByValue] at h
  | cons x xs =>
    simp only [maxByValue, Option.some.injEq] at h
    subst h
    constructor
    · rcases foldl_maxStep_mem xs x with h | h
      · rw [h]
        exact List.mem_cons_self _ _
      · exact List.mem_cons_of_mem _ h
    · intro y hy
      obtain ⟨h1, h2⟩ := foldl_maxStep_ge xs x
      rcases List.mem_cons.mp hy with rfl | hy
      · exact h1
      · exact h2 y hy

lemma maxByValue_eq_none {l : List Cand} : maxByValue l = none ↔ l = [] := by
  cases l <;> simp [maxByValue]

lemma okvFan_range {c : Cand} (h : okvFan c.value = true) : FanValueInRange c := by
  rcases hv : c.value with _ | v
  · rw [hv] at h
    simp [okvFan] at h
  · rw [hv] at h
    simp only [okvFan, Bool.and_eq_true, decide_eq_true_eq] at h
    exact ⟨v, hv, h.1, h.2⟩

/-- C1: for every temperature candidate list, _auto_pick_temp returns a
candidate of maximal value among the LHM candidates whose display name
case-insensitively contains one of package, tctl, tdie, cpu and whose value
lies strictly between 0.5 and 120.0; if no such candidate exists, a
candidate of maximal value among the WMI_ACPI candidates with value in the
same open interval; if still none, it returns none. -/
theorem auto_pick_temp_correct (temps : List Cand) :
    (∀ c, auto_pick_temp temps = some c →
        IsMaxOf c (tempCpuLike temps)
          ∨ (tempCpuLike temps = [] ∧ IsMaxOf c (tempAcpi temps)))
    ∧ (auto_pick_temp temps = none ↔ tempCpuLike temps = [] ∧ tempAcpi temps = []) := by
  constructor
  · intro c h
    unfold auto_pick_temp at h
    rcases hm : maxByValue (tempCpuLike temps) with _ | c1
    · rw [hm] at h
      exact Or.inr ⟨maxByValue_eq_none.mp hm, maxByValue_isMax h⟩
    · rw [hm] at h
      simp only [Option.some.injEq] at h
      subst h
      exact Or.inl (maxByValue_isMax hm)
  · unfold auto_pick_temp
    rcases hm : maxByValue (tempCpuLike temps) with _ | c1
    · rw [maxByValue_eq_none.mp hm]
      simp [maxByValue_eq_none]
    · simp only [reduceCtorEq, false_iff, not_and]
      intro he
      rw [he] at hm
      simp [maxByValue] at hm

/-- C5: for every fan candidate list, _auto_pick_fan picks a maximal-value
LHM candidate whose name contains cpu, aio or pump with value in
[1.0, 20000.0); failing that, a maximal-value LHM fan candidate in that
range; failing that, a maximal-value WMI_FAN candidate in that range;
failing that it returns none. In particular every returned candidate has a
present value v with 1.0 <= v < 20000. -/
theorem auto_pick_fan_correct (fans : List Cand) :
    (∀ c, auto_pick_fan fans = some c →
        IsMaxOf c (fanPri fans)
          ∨ (fanPri fans = [] ∧ IsMaxOf c (fanLhmAny fans))
          ∨ (fanPri fans = [] ∧ fanLhmAny fans = [] ∧ IsMaxOf c (fanWmi fans)))
    ∧ (auto_pick_fan fans = none
        ↔ fanPri fans = [] ∧ fanLhmAny fans = [] ∧ fanWmi fans = [])
    ∧ (∀ c, auto_pick_fan fans = some c → FanValueInRange c) := by
  have hmem : ∀ c, auto_pick_fan fans = some c →
      IsMaxOf c (fanPri fans)
        ∨ (fanPri fans = [] ∧ IsMaxOf c (fanLhmAny fans))
        ∨ (fanPri fans = [] ∧ fanLhmAny fans = [] ∧ IsMaxOf c (fanWmi fans)) := by
    intro c h
    unfold auto_pick_fan at h
    rcases hm1 : maxByValue (fanPri fans) with _ | c1
    · rw [hm1] at h
      rcases hm2 : maxByValue (fanLhmAny fans) with _ | c2
      · rw [hm2] at h
        exact Or.inr (Or.inr
          ⟨maxByValue_eq_none.mp hm1, maxByValue_eq_none.mp hm2, maxByValue_isMax h⟩)
      · rw [hm2] at h
        simp only [Option.some.injEq] at h
        subst h
        exact Or.inr (Or.inl ⟨maxByValue_eq_none.mp hm1, maxByValue_isMax hm2⟩)
    · rw [hm1] at h
      simp only [Option.some.injEq] at h
      subst h
      exact Or.inl (maxByValue_isMax hm1)
  refine ⟨hmem, ?_, ?_⟩
  · unfold auto_pick_fan
    rcases hm1 : maxByValue (fanPri fans) with _ | c1
    · rw [maxByValue_eq_none.mp hm1]
      rcases hm2 : maxByValue (fanLhmAny fans) with _ | c2
      · rw [maxByValue_eq_none.mp hm2]
        simp [maxByValue_eq_none]
      · simp only [reduceCtorEq, false_iff, not_and]
        intro _ he
        rw [he] at hm2
        simp [maxByValue] at hm2
    · simp only [reduceCtorEq, false_iff, not_and]
      intro he
      rw [he] at hm1
      simp [maxByValue] at hm1
  · intro c h
    rcases hmem c h with hx | hx | hx
    · have hc := hx.1
      simp only [tempCpuLike, fanPri, List.mem_filter, Bool.and_eq_true] at hc
      exact okvFan_range hc.2.2
    · have hc := hx.2.1
      simp only [fanLhmAny, List.mem_filter, Bool.and_eq_true] at hc
      exact okvFan_range hc.2.2
    · have hc := hx.2.2.1
      simp only [fanWmi, List.mem_filter, Bool.and_eq_true] at hc
      exact okvFan_range hc.2.2

/-! ### Concrete candidates used to witness the auto-picker theorems -/

def tempLhmCand : Cand :=
  { type := "LHM", id := "/intelcpu/0/temperature/8",
    name := "LHM | Cpu | Intel Core | CPU Package", value := some 55 }

def tempAcpiCand : Cand :=
  { type := "WMI_ACPI", id := "WMI:ACPI:0",
    name := "WMI | ACPI ThermalZone | idx=0 | TZ00", value := some 40 }

def tempsEx : List Cand := [tempLhmCand, tempAcpiCand]

lemma okvTemp_55 : okvTemp (some 55) = true := by
  simp only [okvTemp, Bool.and_eq_true, decide_eq_true_eq]
  norm_num

lemma okvTemp_40 : okvTemp (some 40) = true := by
  simp only [okvTemp, Bool.and_eq_true, decide_eq_true_eq]
  norm_num

lemma tempCpuLike_ex : tempCpuLike tempsEx = [tempLhmCand] := by
  simp +decide [tempCpuLike, tempsEx, tempLhmCand, tempAcpiCand, okvTemp_55, okvTemp_40]

lemma auto_pick_temp_ex : auto_pick_temp tempsEx = some tempLhmCand := by
  unfold auto_pick_temp
  rw [tempCpuLike_ex]
  simp [maxByValue]

/-- Witness for C1: on a concrete list with one keyword-matching LHM
candidate at 55 degrees and one ACPI candidate at 40 degrees, the theorem
applies and the picked candidate is maximal in the keyword-filtered pool. -/
theorem auto_pick_temp_correct_witness :
    IsMaxOf tempLhmCand (tempCpuLike tempsEx)
      ∨ (tempCpuLike tempsEx = [] ∧ IsMaxOf tempLhmCand (tempAcpi tempsEx)) :=
  (auto_pick_temp_correct tempsEx).1 tempLhmCand auto_pick_temp_ex

def fanCpuCand : Cand :=
  { type := "LHM", id := "/lpc/nct6799d/fan/1",
    name := "LHM | Motherboard | NCT6799D | CPU Fan", value := some 1500 }

def fansEx : List Cand := [fanCpuCand]

lemma okvFan_1500 : okvFan (some 1500) = true := by
  simp only [okvFan, Bool.and_eq_true, decide_eq_true_eq]
  norm_num

lemma fanPri_ex : fanPri fansEx = [fanCpuCand] := by
  simp +decide [fanPri, fansEx, fanCpuCand, okvFan_1500]

lemma auto_pick_fan_ex : auto_pick_fan fansEx = some fanCpuCand := by
  unfold auto_pick_fan
  rw [fanPri_ex]
  simp [maxByValue]

/-- Witness for C5: on a concrete list with one LHM fan named CPU Fan at
1500 RPM, the theorem applies and yields a maximal pick of the priority
pool. -/
theorem auto_pick_fan_correct_witness :
    IsMaxOf fanCpuCand (fanPri fansEx)
      ∨ (fanPri fansEx = [] ∧ IsMaxOf fanCpuCand (fanLhmAny fansEx))
      ∨ (fanPri fansEx = [] ∧ fanLhmAny fansEx = []
          ∧ IsMaxOf fanCpuCand (fanWmi fansEx)) :=
  (auto_pick_fan_correct fansEx).1 fanCpuCand auto_pick_fan_ex

/-! ### Persisted selection file (SensorSelector._save_config, lines
790-797, and SensorSelector._load_config, lines 799-810)

The JSON tree written by json.dump and read back by json.load is modelled
directly as a value of the Json type below; the byte-level serialization is
abstracted as the identity on trees, which is faithful for the object a
_save_config call produces (string keys, string/float/null leaves). -/

inductive Json where
  | null
  | bool (b : Bool)
  | num (q : ℚ)
  | str (s : String)
  | arr (items : List Json)
  | obj (fields : List (String × Json))

/-- Python truthiness of a JSON-decoded value, used by the or None in
_load_config. -/
def Json.truthy : Json → Bool
  | .null => false
  | .bool b => b
  | .num q => !(decide (q = 0))
  | .str s => !(s == "")
  | .arr items => !items.isEmpty
  | .obj fields => !fields.isEmpty

/-- Models dict.get(key): the value of the first matching key, or null
(Python None) when absent. -/
def jsonGet (fields : List (String × Json)) (key : String) : Json :=
  match fields.find? (fun p => p.1 == key) with
  | some p => p.2
  | none => Json.null

/-- Models the Python pattern x or None: keep a truthy value, collapse any
falsy value to absent. -/
def orNone (j : Json) : Option Json := if j.truthy then some j else none

/-- The state of the config file as _load_config can observe it:
missing (os.path.exists is False), unreadable (open or json.load raises,
e.g. malformed JSON), or parsed into a JSON value. -/
inductive FileState where
  | missing
  | unreadable
  | parsed (j : Json)

/-- SensorSelector._load_config (LHML.py lines 799-810). Returns the loaded
(sel_temp, sel_fan) assignment on success (the Python method returns True
after mutating self), and none when the method returns False. A file that
parses to a non-object JSON value makes cfg.get raise AttributeError, which
the except swallows, returning False. -/
def load_config : FileState → Option (Option Json × Option Json)
  | .missing => none
  | .unreadable => none
  | .parsed (.obj fields) =>
      some (orNone (jsonGet fields "temp_source"), orNone (jsonGet fields "fan_source"))
  | .parsed _ => none

/-- The JSON object json.dump serializes for a selection dict
(type/id/name/value, as built by the candidate enumerators). -/
def Cand.toJson (c : Cand) : Json :=
  .obj [("type", .str c.type), ("id", .str c.id), ("name", .str c.name),
        ("value", match c.value with | none => Json.null | some q => Json.num q)]

/-- Decoder for a selection-shaped JSON object; inverse of Cand.toJson,
used to state that the persisted pair is reproduced exactly. -/
def candOfJson : Json → Option Cand
  | .obj fields =>
    match jsonGet fields "type", jsonGet fields "id",
        jsonGet fields "name", jsonGet fields "value" with
    | .str t, .str i, .str n, .null => some ⟨t, i, n, none⟩
    | .str t, .str i, .str n, .num q => some ⟨t, i, n, some q⟩
    | _, _, _, _ => none
  | _ => none

/-- SensorSelector._save_config (LHML.py lines 790-797): the cfg object
written to disk, holding both selections (null when absent) and a creation
timestamp. -/
def save_config (selTemp selFan : Option Json) (createdAt : String) : Json :=
  .obj [("temp_source", selTemp.getD Json.null),
        ("fan_source", selFan.getD Json.null),
        ("created_at", Json.str createdAt)]

/-- C2: _save_config followed by _load_config on the same path reproduces
the original temperature and fan Selection pair exactly, including when a
selection is absent (null fields survive as absent). Selections are the
type/id/name/value dicts produced by the candidate enumerators, here ranged
over by Cand; the second conjunct closes the loop by decoding the loaded
JSON object back to the original candidate record. -/
theorem save_load_roundtrip (st sf : Option Cand) (createdAt : String) :
    load_config (.parsed (save_config (st.map Cand.toJson) (sf.map Cand.toJson) createdAt))
        = some (st.map Cand.toJson, sf.map Cand.toJson)
    ∧ ∀ c : Cand, candOfJson (Cand.toJson c) = some c := by
  constructor
  · cases st <;> cases sf <;>
      simp +decide [load_config, save_config, jsonGet, orNone, Json.truthy,
        Cand.toJson, List.find?]
  · intro c
    obtain ⟨t, i, n, v⟩ := c
    cases v <;> simp +decide [Cand.toJson, candOfJson, jsonGet, List.find?]

/-! ### The selection procedure (SensorSelector.ensure_selection, LHML.py
lines 822-869)

The external effects of one ensure_selection call are recorded as an event
trace: candidate enumeration (list_temp_candidates / list_fan_candidates),
blocking operator prompts, auto-picker runs, and the final _save_config
write. The enumeration results and the operator input lines are supplied by
the environment. A run that exhausts the operator input script corresponds
to input() raising EOFError, which ensure_selection does not catch; that
aborted run is modelled as none. -/

inductive Event where
  | enumerateTemps
  | promptTemp
  | autoPickTemp
  | enumerateFans
  | promptFan
  | autoPickFan
  | saveFile
deriving DecidableEq

structure SelEnv where
  file : FileState
  isTty : Bool
  temps : List Cand
  fans : List Cand
  script : List String

/-- The blocking input loop of ensure_selection (either of the two while
True loops): strip the line; empty input leaves the selection to the auto
picker; a digit string indexing into the candidate list selects that
candidate; anything else re-prompts. -/
def pickLoop (script : List String) (cands : List Cand) :
    Option (Option Cand × List String) :=
  match script with
  | [] => none
  | line :: rest =>
    let tin := trimL line.data
    if tin.isEmpty then some (none, rest)
    else if h : tin.all Char.isDigit = true ∧ digitsVal tin < cands.length then
      some (some (cands.get ⟨digitsVal tin, h.2⟩), rest)
    else pickLoop rest cands

/-- One quantity of the selection procedure: prompt when a terminal is
attached and candidates exist, then fall back to the auto picker whenever
no candidate was chosen interactively. -/
def choosePhase (evPrompt evAuto : Event) (auto : List Cand → Option Cand)
    (isTty : Bool) (script : List String) (cands : List Cand) :
    Option (Option Cand × List String × List Event) :=
  if isTty && !cands.isEmpty then
    match pickLoop script cands with
    | none => none
    | some (some c, rest) => some (some c, rest, [evPrompt])
    | some (none, rest) => some (auto cands, rest, [evPrompt, evAuto])
  else
    some (auto cands, script, [evAuto])

/-- SensorSelector.ensure_selection (LHML.py lines 822-869), returning the
final (sel_temp, sel_fan) pair and the event trace. A successful
_load_config returns immediately with an empty trace. -/
def ensure_selection (env : SelEnv) :
    Option ((Option Json × Option Json) × List Event) :=
  match load_config env.file with
  | some p => some (p, [])
  | none =>
    match choosePhase .promptTemp .autoPickTemp auto_pick_temp
        env.isTty env.script env.temps with
    | none => none
    | some (selT, script1, evT) =>
      match choosePhase .promptFan .autoPickFan auto_pick_fan
          env.isTty script1 env.fans with
      | none => none
      | some (selF, _, evF) =>
        some ((selT.map Cand.toJson, selF.map Cand.toJson),
          Event.enumerateTemps :: evT
            ++ Event.enumerateFans :: evF ++ [Event.saveFile])

lemma choosePhase_events {evPrompt evAuto : Event} {auto : List Cand → Option Cand}
    {isTty : Bool} {script : List String} {cands : List Cand}
    {c : Option Cand} {rest : List String} {evs : List Event}
    (h : choosePhase evPrompt evAuto auto isTty script cands = some (c, rest, evs)) :
    evPrompt ∈ evs ∨ evAuto ∈ evs := by
  unfold choosePhase at h
  split at h
  · rcases hp : pickLoop script cands with _ | ⟨_ | c1, rest1⟩ <;> rw [hp] at h
    · exact absurd h (by simp)
    · simp only [Option.some.injEq, Prod.mk.injEq] at h
      rw [← h.2.2]
      exact Or.inr (by simp)
    · simp only [Option.some.injEq, Prod.mk.injEq] at h
      rw [← h.2.2]
      exact Or.inl (by simp)
  · simp only [Option.some.injEq, Prod.mk.injEq] at h
    rw [← h.2.2]
    exact Or.inr (by simp)

/-- C6 counterpart of C3: the amended loaded-file behavior. When the
persisted file exists and parses as a JSON object, ensure_selection adopts
the temp_source and fan_source fields of that object, a missing, null or
otherwise Python-falsy field becoming an absent selection, and performs no
candidate enumeration, no prompting, no auto-picker run and no file write
(empty event trace). -/
theorem ensure_selection_loaded_verbatim (env : SelEnv)
    (fields : List (String × Json)) (h : env.file = .parsed (.obj fields)) :
    ensure_selection env =
      some ((orNone (jsonGet fields "temp_source"),
             orNone (jsonGet fields "fan_source")), []) := by
  unfold ensure_selection
  rw [h]
  rfl

def envLoadedFields : List (String × Json) :=
  [("temp_source", Cand.toJson tempLhmCand), ("fan_source", Json.null),
   ("created_at", Json.str "2025-01-01 00:00:00")]

def envLoaded : SelEnv :=
  { file := .parsed (.obj envLoadedFields), isTty := true,
    temps := tempsEx, fans := fansEx, script := ["0"] }

/-- Witness for the amended C3 theorem: a concrete parsed object file is
adopted verbatim (null fan_source becomes absent) with an empty trace, even
though a terminal and candidates are available. -/
theorem ensure_selection_loaded_verbatim_witness :
    ensure_selection envLoaded =
      some ((some (Cand.toJson tempLhmCand), none), []) := by
  rw [ensure_selection_loaded_verbatim envLoaded envLoadedFields rfl]
  simp +decide [jsonGet, orNone, Json.truthy, Cand.toJson, List.find?, tempLhmCand]

def envNonObject : SelEnv :=
  { file := .parsed (.arr []), isTty := false, temps := [], fans := [],
    script := [] }

/-- Counterexample to C3 as stated: the persisted file exists and parses as
JSON (the JSON array within envNonObject), yet ensure_selection does not
adopt any fields; cfg.get raises AttributeError inside _load_config, the
method returns False, and the whole selection procedure re-runs: the trace
contains candidate enumeration, auto-picker runs and a file write. -/
theorem ensure_selection_nonobject_counterexample :
    ensure_selection envNonObject =
      some ((none, none),
        [Event.enumerateTemps, Event.autoPickTemp, Event.enumerateFans,
         Event.autoPickFan, Event.saveFile]) := rfl

/-- C6: if the persisted selection file exists but is malformed JSON,
_load_config returns absent without raising, and every completed
ensure_selection run then fully re-executes the selection procedure: it
enumerates temperature and fan candidates, either prompts or auto-picks for
each quantity, and persists the result. -/
theorem malformed_config_reruns_selection (env : SelEnv)
    (h : env.file = .unreadable) :
    load_config env.file = none
    ∧ ∀ sel evs, ensure_selection env = some (sel, evs) →
        Event.enumerateTemps ∈ evs ∧ Event.enumerateFans ∈ evs
          ∧ Event.saveFile ∈ evs
          ∧ (Event.promptTemp ∈ evs ∨ Event.autoPickTemp ∈ evs)
          ∧ (Event.promptFan ∈ evs ∨ Event.autoPickFan ∈ evs) := by
  refine ⟨by rw [h]; rfl, ?_⟩
  intro sel evs hrun
  unfold ensure_selection at hrun
  rw [h] at hrun
  simp only [load_config] at hrun
  rcases h1 : choosePhase .promptTemp .autoPickTemp auto_pick_temp
      env.isTty env.script env.temps with _ | ⟨selT, script1, evT⟩
  · rw [h1] at hrun
    exact absurd hrun (by simp)
  · rw [h1] at hrun
    dsimp only at hrun
    rcases h2 : choosePhase .promptFan .autoPickFan auto_pick_fan
        env.isTty script1 env.fans with _ | ⟨selF, script2, evF⟩
    · rw [h2] at hrun
      exact absurd hrun (by simp)
    · rw [h2] at hrun
      simp only [Option.some.injEq, Prod.mk.injEq] at hrun
      rw [← hrun.2]
      refine ⟨by simp, by simp, by simp, ?_, ?_⟩
      · rcases choosePhase_events h1 with hp | hp
        · exact Or.inl (by simp [hp])
        · exact Or.inr (by simp [hp])
      · rcases choosePhase_events h2 with hp | hp
        · exact Or.inl (by simp [hp])
        · exact Or.inr (by simp [hp])

def envMalformed : SelEnv :=
  { file := .unreadable, isTty := false, temps := tempsEx, fans := fansEx,
    script := [] }

lemma ensure_selection_envMalformed :
    ensure_selection envMalformed =
      some ((some (Cand.toJson tempLhmCand), some (Cand.toJson fanCpuCand)),
        [Event.enumerateTemps, Event.autoPickTemp, Event.enumerateFans,
         Event.autoPickFan, Event.saveFile]) := by
  simp [ensure_selection, envMalformed, load_config, choosePhase,
    auto_pick_temp_ex, auto_pick_fan_ex]

/-- Witness for C6: with a malformed file, no terminal, and the concrete
candidate lists, the completed headless run enumerated both quantities,
auto-picked both, and saved. -/
theorem malformed_config_reruns_selection_witness :
    Event.enumerateTemps ∈ [Event.enumerateTemps, Event.autoPickTemp,
        Event.enumerateFans, Event.autoPickFan, Event.saveFile]
    ∧ Event.enumerateFans ∈ [Event.enumerateTemps, Event.autoPickTemp,
        Event.enumerateFans, Event.autoPickFan, Event.saveFile]
    ∧ Event.saveFile ∈ [Event.enumerateTemps, Event.autoPickTemp,
        Event.enumerateFans, Event.autoPickFan, Event.saveFile]
    ∧ (Event.promptTemp ∈ [Event.enumerateTemps, Event.autoPickTemp,
        Event.enumerateFans, Event.autoPickFan, Event.saveFile]
       ∨ Event.autoPickTemp ∈ [Event.enumerateTemps, Event.autoPickTemp,
        Event.enumerateFans, Event.autoPickFan, Event.saveFile])
    ∧ (Event.promptFan ∈ [Event.enumerateTemps, Event.autoPickTemp,
        Event.enumerateFans, Event.autoPickFan, Event.saveFile]
       ∨ Event.autoPickFan ∈ [Event.enumerateTemps, Event.autoPickTemp,
        Event.enumerateFans, Event.autoPickFan, Event.saveFile]) :=
  (malformed_config_reruns_selection envMalformed rfl).2
    (some (Cand.toJson tempLhmCand), some (Cand.toJson fanCpuCand))
    [Event.enumerateTemps, Event.autoPickTemp, Event.enumerateFans,
     Event.autoPickFan, Event.saveFile]
    ensure_selection_envMalformed

/-! ### Runtime reads against the pinned selection
(SensorSelector.read_temp_c, lines 886-905, SensorSelector.read_fan_rpm,
lines 907-926, SensorSelector._read_lhm_by_id, lines 871-884) -/

/-- The backend state visible to one read call: whether the LHM handle is
usable, the current LHM hardware roots, whether the WMI module and a
Windows platform are available, and the current WMI record lists. An ACPI
record is its raw CurrentTemperature (or Temperature) value in
tenths of Kelvin; a fan record is its Speed (or DesiredSpeed) value. -/
structure ReadEnv where
  lhmOk : Bool
  roots : List Hardware
  wmiAvailable : Bool
  acpiItems : List (Option ℚ)
  fanItems : List (Option ℚ)

/-- SensorSelector._read_lhm_by_id: walk the sensor tree and return the
value of the first sensor whose identifier matches, absent when the value
is absent, the identifier resolves to no sensor, or the backend is down. -/
def read_lhm_by_id (env : ReadEnv) (ident : String) : Option ℚ :=
  if !env.lhmOk then none
  else
    match (walkSensorsList env.roots).find? (fun s => s.ident == ident) with
    | some s => s.value
    | none => none

/-- Characters after the last colon, as id.split(":")[-1] computes. -/
def lastColonSeg (l : List Char) : List Char :=
  l.foldl (fun acc c => if c == ':' then [] else acc ++ [c]) []

/-- Models Python int(s) on the stored index segment: optional sign before
digits, exception (none) otherwise. -/
def pyInt : List Char → Option ℤ
  | l =>
    match trimL l with
    | '-' :: ds =>
      if !ds.isEmpty && ds.all Char.isDigit then some (-(digitsVal ds : ℤ)) else none
    | '+' :: ds =>
      if !ds.isEmpty && ds.all Char.isDigit then some (digitsVal ds : ℤ) else none
    | ds =>
      if !ds.isEmpty && ds.all Char.isDigit then some (digitsVal ds : ℤ) else none

/-- The index a WMI selection stores inside its synthetic identifier:
int(sel["id"].split(":")[-1]). -/
def parseIdx (id : String) : Option ℤ := pyInt (lastColonSeg id.data)

/-- SensorSelector.read_temp_c (LHML.py lines 886-905). -/
def read_temp_c (env : ReadEnv) (sel : Option Cand) : Option ℚ :=
  match sel with
  | none => none
  | some c =>
    if c.type == "LHM" then read_lhm_by_id env c.id
    else if c.type == "WMI_ACPI" && env.wmiAvailable then
      match parseIdx c.id with
      | none => none
      | some i =>
        if h : 0 ≤ i ∧ i.toNat < env.acpiItems.length then
          match env.acpiItems.get ⟨i.toNat, h.2⟩ with
          | some t => some (t / 10 - 27315 / 100)
          | none => none
        else none
    else none

/-- SensorSelector.read_fan_rpm (LHML.py lines 907-926). -/
def read_fan_rpm (env : ReadEnv) (sel : Option Cand) : Option ℚ :=
  match sel with
  | none => none
  | some c =>
    if c.type == "LHM" then read_lhm_by_id env c.id
    else if c.type == "WMI_FAN" && env.wmiAvailable then
      match parseIdx c.id with
      | none => none
      | some i =>
        if h : 0 ≤ i ∧ i.toNat < env.fanItems.length then
          match env.fanItems.get ⟨i.toNat, h.2⟩ with
          | some sp => some sp
          | none => none
        else none
    else none

/-- C7: a pinned selection whose identifier no longer resolves yields an
absent reading. For an LHM selection: when no sensor in the current
enumeration carries the pinned identifier (in particular when the tree is
empty), read_temp_c and read_fan_rpm return none. For an OSManagement
selection: when the stored index is out of range of the current record
list (including an empty list), the corresponding reader returns none. The
readers are pure functions of the environment and the pinned selection, so
no re-selection and no caching can occur. -/
theorem pinned_missing_reads_absent (env : ReadEnv) (c : Cand) :
    (c.type = "LHM" → (∀ s ∈ walkSensorsList env.roots, s.ident ≠ c.id) →
        read_temp_c env (some c) = none ∧ read_fan_rpm env (some c) = none)
    ∧ (∀ i : ℤ, c.type = "WMI_ACPI" → parseIdx c.id = some i →
        ¬(0 ≤ i ∧ i.toNat < env.acpiItems.length) →
        read_temp_c env (some c) = none)
    ∧ (∀ i : ℤ, c.type = "WMI_FAN" → parseIdx c.id = some i →
        ¬(0 ≤ i ∧ i.toNat < env.fanItems.length) →
        read_fan_rpm env (some c) = none) := by
  have hfind : (∀ s ∈ walkSensorsList env.roots, s.ident ≠ c.id) →
      read_lhm_by_id env c.id = none := by
    intro hs
    unfold read_lhm_by_id
    split
    · rfl
    · rw [List.find?_eq_none.mpr]
      intro s hsmem
      simpa using hs s hsmem
  refine ⟨?_, ?_, ?_⟩
  · intro htype hs
    constructor
    · unfold read_temp_c
      dsimp only
      rw [if_pos (by simp [htype])]
      exact hfind hs
    · unfold read_fan_rpm
      dsimp only
      rw [if_pos (by simp [htype])]
      exact hfind hs
  · intro i htype hparse hrange
    unfold read_temp_c
    dsimp only
    rw [if_neg (by simp [htype]), htype]
    cases hw : env.wmiAvailable
    · simp
    · simp only [Bool.and_true, if_pos rfl, hparse]
      rw [dif_neg hrange]
      simp
  · intro i htype hparse hrange
    unfold read_fan_rpm
    dsimp only
    rw [if_neg (by simp [htype]), htype]
    cases hw : env.wmiAvailable
    · simp
    · simp only [Bool.and_true, if_pos rfl, hparse]
      rw [dif_neg hrange]
      simp

def readEnvEmpty : ReadEnv :=
  { lhmOk := true, roots := [], wmiAvailable := true, acpiItems := [],
    fanItems := [] }

/-- Witness for C7: a pinned LHM temperature selection against a backend
that now reports zero hardware nodes reads as absent from both accessors. -/
theorem pinned_missing_reads_absent_witness :
    read_temp_c readEnvEmpty (some tempLhmCand) = none
      ∧ read_fan_rpm readEnvEmpty (some tempLhmCand) = none :=
  (pinned_missing_reads_absent readEnvEmpty tempLhmCand).1 rfl
    (by intro s hs; simp [readEnvEmpty, walkSensorsList] at hs)

/-! ### Aggregate readers (LibreHMReader, LHML.py lines 358-556)

These iterate the top-level hardware list of the opened computer object
(refresh side effects are irrelevant to the computed value and are not
modelled). The ok flag stands for self.ok and self._comp is not None. -/

/-- Per-adapter sensor scan of nic_up_down_bps (the inner loop building
u_local and d_local): throughput sensors whose lower-cased name contains
upload or download, absent values skipped. -/
def nicStepSensor (acc : ℚ × ℚ) (s : Sensor) : ℚ × ℚ :=
  if lowerStr s.sensorType == "throughput".data then
    if containsSub "upload".data (lowerStr s.name) then
      match s.value with
      | some v => (acc.1 + v, acc.2)
      | none => acc
    else if containsSub "download".data (lowerStr s.name) then
      match s.value with
      | some v => (acc.1, acc.2 + v)
      | none => acc
    else acc
  else acc

/-- The (u_local, d_local) pair of one hardware node. -/
def nicLocal (hw : Hardware) : ℚ × ℚ := hw.sensors.foldl nicStepSensor (0, 0)

/-- The network-adapter test of nic_up_down_bps:
str(hw.HardwareType).lower() == "network". -/
def nicIsAdapter (hw : Hardware) : Bool := lowerStr hw.hardwareType == "network".data

/-- Per-device sensor scan of storage_read_write_bps (the inner loop
building r_local and w_local). -/
def storStepSensor (acc : ℚ × ℚ) (s : Sensor) : ℚ × ℚ :=
  if lowerStr s.sensorType == "throughput".data then
    if containsSub "read rate".data (lowerStr s.name)
        || (containsSub "read".data (lowerStr s.name)
            && containsSub "rate".data (lowerStr s.name)) then
      match s.value with
      | some v => (acc.1 + v, acc.2)
      | none => acc
    else if containsSub "write rate".data (lowerStr s.name)
        || (containsSub "write".data (lowerStr s.name)
            && containsSub "rate".data (lowerStr s.name)) then
      match s.value with
      | some v => (acc.1, acc.2 + v)
      | none => acc
    else acc
  else acc

/-- The (r_local, w_local) pair of one hardware node. -/
def storLocal (hw : Hardware) : ℚ × ℚ := hw.sensors.foldl storStepSensor (0, 0)

/-- The storage-device test of storage_read_write_bps: hardware-type string
contains storage, hdd or nvme, or (fallback) the device name contains one
of nvme, hdd, ssd, wdc, st. -/
def isStorageHw (hw : Hardware) : Bool :=
  (["storage", "hdd", "nvme"].any fun k => containsSub k.data (lowerStr hw.hardwareType))
    || (["nvme", "hdd", "ssd", "wdc", "st"].any fun tag =>
          containsSub tag.data (lowerStr hw.name))

/-- Shared per-node accumulation step of both throughput readers: a node
passing the hardware test contributes its local sums only when one of them
is strictly positive, which also raises the has_any flag. -/
def tStep (p : Hardware → Bool) (loc : Hardware → ℚ × ℚ)
    (acc : ℚ × ℚ × Bool) (hw : Hardware) : ℚ × ℚ × Bool :=
  if p hw then
    if decide (0 < (loc hw).1) || decide (0 < (loc hw).2) then
      (acc.1 + (loc hw).1, acc.2.1 + (loc hw).2, true)
    else acc
  else acc

/-- LibreHMReader.nic_up_down_bps (LHML.py lines 475-513): bits per second,
truncated to int after the times-8 conversion from bytes per second. -/
def nic_up_down_bps (ok : Bool) (hws : List Hardware) : Option ℤ × Option ℤ :=
  if !ok then (none, none)
  else
    let r := hws.foldl (tStep nicIsAdapter nicLocal) (0, 0, false)
    if r.2.2 then (some (pyTrunc (r.1 * 8)), some (pyTrunc (r.2.1 * 8)))
    else (none, none)

/-- LibreHMReader.storage_read_write_bps (LHML.py lines 515-556). -/
def storage_read_write_bps (ok : Bool) (hws : List Hardware) : Option ℤ × Option ℤ :=
  if !ok then (none, none)
  else
    let r := hws.foldl (tStep isStorageHw storLocal) (0, 0, false)
    if r.2.2 then (some (pyTrunc (r.1 * 8)), some (pyTrunc (r.2.1 * 8)))
    else (none, none)

/-- The nodes whose positive local sums reach the aggregate (those that set
has_any). -/
def tContributing (p : Hardware → Bool) (loc : Hardware → ℚ × ℚ)
    (hws : List Hardware) : List Hardware :=
  hws.filter fun hw => p hw && (decide (0 < (loc hw).1) || decide (0 < (loc hw).2))

def tFirstSum (p : Hardware → Bool) (loc : Hardware → ℚ × ℚ)
    (hws : List Hardware) : ℚ :=
  ((tContributing p loc hws).map fun hw => (loc hw).1).sum

def tSecondSum (p : Hardware → Bool) (loc : Hardware → ℚ × ℚ)
    (hws : List Hardware) : ℚ :=
  ((tContributing p loc hws).map fun hw => (loc hw).2).sum

/-- A matching throughput sensor (with a present value) exists on a matching
adapter: the reading of the C4 claim text for literally no contributing
sensor was found, network case. -/
def nicFoundSensor (hws : List Hardware) : Bool :=
  hws.any fun hw => nicIsAdapter hw && hw.sensors.any fun s =>
    lowerStr s.sensorType == "throughput".data
      && (containsSub "upload".data (lowerStr s.name)
          || containsSub "download".data (lowerStr s.name))
      && s.value.isSome

/-- Same reading for the storage case. -/
def storFoundSensor (hws : List Hardware) : Bool :=
  hws.any fun hw => isStorageHw hw && hw.sensors.any fun s =>
    lowerStr s.sensorType == "throughput".data
      && (containsSub "read".data (lowerStr s.name)
          || containsSub "write".data (lowerStr s.name))
      && containsSub "rate".data (lowerStr s.name)
      && s.value.isSome

/-! ### GPU memory reader (LibreHMReader.gpu_mem_used_total_bytes, LHML.py
lines 358-416) -/

/-- Per-GPU sensor scan: SmallData sensors (by identifier substring or
sensor type) named GPU Memory Used / GPU Memory Total / D3D Dedicated
Memory Used set the (u_local, t_local, d3d_ded_local) slots, the last
matching sensor winning. -/
def gpuStepSensor (acc : Option ℚ × Option ℚ × Option ℚ) (s : Sensor) :
    Option ℚ × Option ℚ × Option ℚ :=
  if containsSub "smalldata".data (lowerStr s.ident)
      || lowerStr s.sensorType == "smalldata".data then
    match s.value with
    | none => acc
    | some v =>
      if containsSub "gpu memory used".data (lowerStr s.name) then
        (some v, acc.2.1, acc.2.2)
      else if containsSub "gpu memory total".data (lowerStr s.name) then
        (acc.1, some v, acc.2.2)
      else if containsSub "d3d dedicated memory used".data (lowerStr s.name) then
        (acc.1, acc.2.1, some v)
      else acc
  else acc

/-- The (u_local, t_local, d3d_ded_local) triple of one GPU node. -/
def gpuLocal (hw : Hardware) : Option ℚ × Option ℚ × Option ℚ :=
  hw.sensors.foldl gpuStepSensor (none, none, none)

/-- The used value of one GPU node after the d3d fallback
(if u_local is None and d3d_ded_local is not None: u_local = d3d). -/
def gpuUsedEff (hw : Hardware) : Option ℚ :=
  match gpuLocal hw with
  | (none, _, d) => d
  | (some u, _, _) => some u

/-- The t_local value of one GPU node. -/
def gpuTotalLocal (hw : Hardware) : Option ℚ := (gpuLocal hw).2.1

/-- Per-GPU accumulation: each present local value adds its megabyte count
times 1,000,000 and raises has_any. -/
def gpuStep (acc : ℚ × ℚ × Bool) (hw : Hardware) : ℚ × ℚ × Bool :=
  if strHasCase hw.hardwareType "Gpu" then
    match gpuUsedEff hw, gpuTotalLocal hw with
    | some u1, some t1 => (acc.1 + u1 * 1000000, acc.2.1 + t1 * 1000000, true)
    | some u1, none => (acc.1 + u1 * 1000000, acc.2.1, true)
    | none, some t1 => (acc.1, acc.2.1 + t1 * 1000000, true)
    | none, none => acc
  else acc

/-- LibreHMReader.gpu_mem_used_total_bytes (LHML.py lines 358-416). -/
def gpu_mem_used_total_bytes (ok : Bool) (hws : List Hardware) :
    Option ℤ × Option ℤ :=
  if !ok then (none, none)
  else
    let r := hws.foldl gpuStep (0, 0, false)
    if !r.2.2 then (none, none)
    else (some (if 0 ≤ r.1 then pyTrunc r.1 else 0),
          if 0 < r.2.1 then some (pyTrunc r.2.1) else none)

/-- The GPU nodes of the hardware list ("Gpu" in str(hw.HardwareType)). -/
def gpuNodeList (hws : List Hardware) : List Hardware :=
  hws.filter fun hw => strHasCase hw.hardwareType "Gpu"

def gpuUsedSum (hws : List Hardware) : ℚ :=
  (((gpuNodeList hws).filterMap gpuUsedEff).map fun v => v * 1000000).sum

def gpuTotalSum (hws : List Hardware) : ℚ :=
  (((gpuNodeList hws).filterMap gpuTotalLocal).map fun v => v * 1000000).sum

def gpuHasAny (hws : List Hardware) : Bool :=
  (gpuNodeList hws).any fun hw => (gpuUsedEff hw).isSome || (gpuTotalLocal hw).isSome

/-! ### CPU effective frequency (LibreHMReader.cpu_effective_freq_mhz,
LHML.py lines 418-445) -/

/-- The per-sensor filter of cpu_effective_freq_mhz: clock sensors whose
lower-cased name contains effective or starts with core #, with a present,
strictly positive value. -/
def pickEff (s : Sensor) : Option ℚ :=
  if lowerStr s.sensorType == "clock".data then
    if containsSub "effective".data (lowerStr s.name)
        || isPrefixL "core #".data (lowerStr s.name) then
      match s.value with
      | some v => if 0 < v then some v else none
      | none => none
    else none
  else none

/-- The appending inner loop of cpu_effective_freq_mhz. -/
def cpuEffStepSensor (vs : List ℚ) (s : Sensor) : List ℚ :=
  match pickEff s with
  | some v => vs ++ [v]
  | none => vs

/-- LibreHMReader.cpu_effective_freq_mhz (LHML.py lines 418-445). -/
def cpu_effective_freq_mhz (ok : Bool) (hws : List Hardware) : Option ℚ :=
  if !ok then none
  else
    let vals := hws.foldl
      (fun vs hw =>
        if hw.hardwareType == "Cpu" then hw.sensors.foldl cpuEffStepSensor vs
        else vs) []
    if vals.isEmpty then none else some (vals.sum / vals.length)

/-- Flat description of the collected value list: all pickEff hits of the
CPU nodes in order. -/
def effClockVals (hws : List Hardware) : List ℚ :=
  (hws.filter fun hw => hw.hardwareType == "Cpu").flatMap
    fun hw => hw.sensors.filterMap pickEff

/-- Modelled from the claim text of C9 (not from the source): the
arithmetic mean of the present values of all effective clock sensors
across CPU hardware nodes, absent when there are none. -/
def claimEffectiveMean (hws : List Hardware) : Option ℚ :=
  let vals := (hws.filter fun hw => hw.hardwareType == "Cpu").flatMap
    fun hw => hw.sensors.filterMap fun s =>
      if lowerStr s.sensorType == "clock".data
          && containsSub "effective".data (lowerStr s.name) then s.value
      else none
  if vals.isEmpty then none else some (vals.sum / vals.length)

/-! ### Fold characterization lemmas for the aggregate readers -/

lemma tStep_fold (p : Hardware → Bool) (loc : Hardware → ℚ × ℚ)
    (hws : List Hardware) (u d : ℚ) (b : Bool) :
    hws.foldl (tStep p loc) (u, d, b)
      = (u + tFirstSum p loc hws, d + tSecondSum p loc hws,
         b || !(tContributing p loc hws).isEmpty) := by
  induction hws generalizing u d b with
  | nil => simp [tFirstSum, tSecondSum, tContributing]
  | cons hw rest ih =>
    by_cases h1 : p hw = true
    · by_cases h2 : (decide (0 < (loc hw).1) || decide (0 < (loc hw).2)) = true
      · have hc : tContributing p loc (hw :: rest) = hw :: tContributing p loc rest := by
          simp [tContributing, List.filter_cons, h1, h2]
        simp only [List.foldl_cons, tStep, h1, h2, if_true, ih, tFirstSum,
          tSecondSum, hc, List.map_cons, List.sum_cons, List.isEmpty_cons,
          Prod.mk.injEq]
        refine ⟨by rw [add_assoc], by rw [add_assoc], by simp⟩
      · have hc : tContributing p loc (hw :: rest) = tContributing p loc rest := by
          simp only [tContributing, List.filter_cons]
          rw [if_neg]
          simp only [Bool.and_eq_true, not_and]
          intro _
          exact h2
        simp only [List.foldl_cons, tStep, h1, if_true, h2, if_false,
          Bool.false_eq_true, ih, tFirstSum, tSecondSum, hc]
    · have hc : tContributing p loc (hw :: rest) = tContributing p loc rest := by
        simp only [tContributing, List.filter_cons]
        rw [if_neg]
        simp only [Bool.and_eq_true, not_and]
        intro hp
        exact absurd hp h1
      simp only [List.foldl_cons, tStep, h1, Bool.false_eq_true, if_false,
        ih, tFirstSum, tSecondSum, hc]

lemma gpu_fold (hws : List Hardware) (u t : ℚ) (b : Bool) :
    hws.foldl gpuStep (u, t, b)
      = (u + gpuUsedSum hws, t + gpuTotalSum hws, b || gpuHasAny hws) := by
  induction hws generalizing u t b with
  | nil => simp [gpuUsedSum, gpuTotalSum, gpuHasAny, gpuNodeList]
  | cons hw rest ih =>
    by_cases hg : strHasCase hw.hardwareType "Gpu" = true
    · have hnode : gpuNodeList (hw :: rest) = hw :: gpuNodeList rest := by
        simp [gpuNodeList, List.filter_cons, hg]
      rcases hu : gpuUsedEff hw with _ | u1 <;> rcases ht : gpuTotalLocal hw with _ | t1 <;>
        simp only [List.foldl_cons, gpuStep, hg, if_true, hu, ht, ih,
          gpuUsedSum, gpuTotalSum, gpuHasAny, hnode, List.filterMap_cons,
          List.map_cons, List.sum_cons, List.any_cons, Option.isSome_none,
          Option.isSome_some, Bool.false_or, Bool.true_or, Bool.or_assoc,
          Prod.mk.injEq] <;>
        refine ⟨?_, ?_, ?_⟩ <;>
        first
          | rw [add_assoc]
          | simp
    · have hnode : gpuNodeList (hw :: rest) = gpuNodeList rest := by
        simp [gpuNodeList, List.filter_cons, hg]
      simp only [List.foldl_cons, gpuStep, hg, Bool.false_eq_true, if_false,
        ih, gpuUsedSum, gpuTotalSum, gpuHasAny, hnode]

lemma cpuEff_sensor_fold (ss : List Sensor) (vs : List ℚ) :
    ss.foldl cpuEffStepSensor vs = vs ++ ss.filterMap pickEff := by
  induction ss generalizing vs with
  | nil => simp
  | cons s rest ih =>
    rcases hp : pickEff s with _ | v <;>
      simp [List.foldl_cons, cpuEffStepSensor, hp, ih]

lemma cpuEff_fold (hws : List Hardware) (vs : List ℚ) :
    hws.foldl
      (fun vs hw =>
        if hw.hardwareType == "Cpu" then hw.sensors.foldl cpuEffStepSensor vs
        else vs) vs
      = vs ++ effClockVals hws := by
  induction hws generalizing vs with
  | nil => simp [effClockVals]
  | cons hw rest ih =>
    by_cases hc : (hw.hardwareType == "Cpu") = true
    · have he : effClockVals (hw :: rest)
          = hw.sensors.filterMap pickEff ++ effClockVals rest := by
        simp [effClockVals, List.filter_cons, hc]
      rw [List.foldl_cons]
      rw [if_pos hc, cpuEff_sensor_fold, ih, he, List.append_assoc]
    · have he : effClockVals (hw :: rest) = effClockVals rest := by
        simp [effClockVals, List.filter_cons, hc]
      rw [List.foldl_cons]
      rw [if_neg (by simp [hc]), ih, he]

/-! ### C4: zero throughput versus absent -/

lemma nicStepSensor_zero (acc : ℚ × ℚ) (st nm idt : String) :
    nicStepSensor acc ⟨st, nm, idt, some 0⟩ = acc := by
  unfold nicStepSensor
  dsimp only
  split
  · split
    · simp
    · split
      · simp
      · rfl
  · rfl

lemma storStepSensor_zero (acc : ℚ × ℚ) (st nm idt : String) :
    storStepSensor acc ⟨st, nm, idt, some 0⟩ = acc := by
  unfold storStepSensor
  dsimp only
  split
  · split
    · simp
    · split
      · simp
      · rfl
  · rfl

lemma nicLocal_zero_sensor (hwT hwN : String) (su : List Hardware)
    (pre post : List Sensor) (st nm idt : String) :
    nicLocal (.mk hwT hwN (pre ++ ⟨st, nm, idt, some 0⟩ :: post) su)
      = nicLocal (.mk hwT hwN (pre ++ post) su) := by
  unfold nicLocal
  simp only [Hardware.sensors]
  rw [List.foldl_append, List.foldl_append, List.foldl_cons, nicStepSensor_zero]

lemma storLocal_zero_sensor (hwT hwN : String) (su : List Hardware)
    (pre post : List Sensor) (st nm idt : String) :
    storLocal (.mk hwT hwN (pre ++ ⟨st, nm, idt, some 0⟩ :: post) su)
      = storLocal (.mk hwT hwN (pre ++ post) su) := by
  unfold storLocal
  simp only [Hardware.sensors]
  rw [List.foldl_append, List.foldl_append, List.foldl_cons, storStepSensor_zero]

def zeroNet : Hardware :=
  .mk "Network" "Intel Ethernet I226-V"
    [⟨"Throughput", "Upload Speed", "/nic/0/throughput/7", some 0⟩,
     ⟨"Throughput", "Download Speed", "/nic/0/throughput/8", some 0⟩] []

def zeroDisk : Hardware :=
  .mk "Storage" "Samsung SSD 990"
    [⟨"Throughput", "Read Rate", "/nvme/0/throughput/4", some 0⟩,
     ⟨"Throughput", "Write Rate", "/nvme/0/throughput/5", some 0⟩] []

/-- Counterexample to C4 as stated: a network adapter (and a storage
device) carrying found, matching throughput sensors that all report zero
yields an absent result, not (0, 0): the per-node guard u_local greater
than 0 or d_local greater than 0 never raises has_any, so both readers
return absent even though contributing sensors were found. -/
theorem throughput_zero_counterexample :
    nic_up_down_bps true [zeroNet] = (none, none)
    ∧ nicFoundSensor [zeroNet] = true
    ∧ storage_read_write_bps true [zeroDisk] = (none, none)
    ∧ storFoundSensor [zeroDisk] = true := by
  have hn : nicLocal zeroNet = (0, 0) := by
    simp +decide [nicLocal, zeroNet, nicStepSensor, Hardware.sensors]
  have hs : storLocal zeroDisk = (0, 0) := by
    simp +decide [storLocal, zeroDisk, storStepSensor, Hardware.sensors]
  refine ⟨?_, by decide, ?_, by decide⟩
  · simp +decide [nic_up_down_bps, tStep, hn]
  · simp +decide [storage_read_write_bps, tStep, hs]

/-- C4 amended: for both throughput aggregate readers, the result is absent
exactly when the backend is down or no matching node has a strictly
positive matched local sum; so a backend whose matching sensors all report
zero yields absent rather than (0, 0). When some node does have a positive
local sum, the positive nodes are summed (times 8, truncated to int), and a
found-but-zero throughput sensor contributes zero to its node's local sums:
deleting such a sensor changes nothing. -/
theorem throughput_absent_iff :
    (∀ (ok : Bool) (hws : List Hardware),
      nic_up_down_bps ok hws
        = if ok && !(tContributing nicIsAdapter nicLocal hws).isEmpty then
            (some (pyTrunc (tFirstSum nicIsAdapter nicLocal hws * 8)),
             some (pyTrunc (tSecondSum nicIsAdapter nicLocal hws * 8)))
          else (none, none))
    ∧ (∀ (ok : Bool) (hws : List Hardware),
      storage_read_write_bps ok hws
        = if ok && !(tContributing isStorageHw storLocal hws).isEmpty then
            (some (pyTrunc (tFirstSum isStorageHw storLocal hws * 8)),
             some (pyTrunc (tSecondSum isStorageHw storLocal hws * 8)))
          else (none, none))
    ∧ (∀ (hwT hwN : String) (su : List Hardware) (pre post : List Sensor)
        (st nm idt : String),
        nicLocal (.mk hwT hwN (pre ++ ⟨st, nm, idt, some 0⟩ :: post) su)
          = nicLocal (.mk hwT hwN (pre ++ post) su))
    ∧ (∀ (hwT hwN : String) (su : List Hardware) (pre post : List Sensor)
        (st nm idt : String),
        storLocal (.mk hwT hwN (pre ++ ⟨st, nm, idt, some 0⟩ :: post) su)
          = storLocal (.mk hwT hwN (pre ++ post) su)) := by
  refine ⟨?_, ?_, nicLocal_zero_sensor, storLocal_zero_sensor⟩
  · intro ok hws
    cases ok
    · rfl
    · simp only [nic_up_down_bps, Bool.not_true, Bool.false_eq_true, if_false,
        tStep_fold, zero_add, Bool.false_or, Bool.true_and]
  · intro ok hws
    cases ok
    · rfl
    · simp only [storage_read_write_bps, Bool.not_true, Bool.false_eq_true,
        if_false, tStep_fold, zero_add, Bool.false_or, Bool.true_and]

/-! ### C8 and C10: GPU memory -/

lemma gpu_mem_eq_spec (ok : Bool) (hws : List Hardware) :
    gpu_mem_used_total_bytes ok hws
      = if ok && gpuHasAny hws then
          (some (if 0 ≤ gpuUsedSum hws then pyTrunc (gpuUsedSum hws) else 0),
           if 0 < gpuTotalSum hws then some (pyTrunc (gpuTotalSum hws)) else none)
        else (none, none) := by
  cases ok
  · rfl
  · simp only [gpu_mem_used_total_bytes, Bool.not_true, Bool.false_eq_true,
      if_false, gpu_fold, zero_add, Bool.false_or, Bool.true_and]
    cases hA : gpuHasAny hws
    · simp
    · simp

def gpuEx1 : Hardware :=
  .mk "GpuNvidia" "NVIDIA GeForce RTX"
    [⟨"SmallData", "GPU Memory Used", "/gpu/0/smalldata/2", some 1000⟩,
     ⟨"SmallData", "GPU Memory Total", "/gpu/0/smalldata/3", some 2000⟩] []

def gpuEx2 : Hardware :=
  .mk "GpuAmd" "AMD Radeon"
    [⟨"SmallData", "GPU Memory Used", "/gpu/1/smalldata/2", some 500⟩,
     ⟨"SmallData", "GPU Memory Total", "/gpu/1/smalldata/3", some 1000⟩] []

lemma gpuLocal_ex1 : gpuLocal gpuEx1 = (some 1000, some 2000, none) := by decide

lemma gpuLocal_ex2 : gpuLocal gpuEx2 = (some 500, some 1000, none) := by decide

lemma gpuUsedSum_ex : gpuUsedSum [gpuEx1, gpuEx2] = 1500000000 := by
  simp +decide [gpuUsedSum, gpuNodeList, gpuUsedEff, gpuLocal_ex1, gpuLocal_ex2]
  norm_num

lemma gpuTotalSum_ex : gpuTotalSum [gpuEx1, gpuEx2] = 3000000000 := by
  simp +decide [gpuTotalSum, gpuNodeList, gpuTotalLocal, gpuLocal_ex1, gpuLocal_ex2]
  norm_num

/-- C8: gpu_mem_used_total_bytes sums the per-GPU used and total megabyte
readings across all GPU nodes, converting each to bytes by multiplying by
1,000,000, the per-node used value falling back to the D3D dedicated memory
sensor when the paired sensor is absent (gpuUsedEff); in particular two GPU
nodes reporting used 1000 MB / total 2000 MB and used 500 MB /
total 1000 MB yield (1,500,000,000 bytes, 3,000,000,000 bytes). -/
theorem gpu_mem_sum_correct :
    (∀ (ok : Bool) (hws : List Hardware),
      gpu_mem_used_total_bytes ok hws
        = if ok && gpuHasAny hws then
            (some (if 0 ≤ gpuUsedSum hws then pyTrunc (gpuUsedSum hws) else 0),
             if 0 < gpuTotalSum hws then some (pyTrunc (gpuTotalSum hws)) else none)
          else (none, none))
    ∧ gpu_mem_used_total_bytes true [gpuEx1, gpuEx2]
        = (some 1500000000, some 3000000000) := by
  refine ⟨gpu_mem_eq_spec, ?_⟩
  rw [gpu_mem_eq_spec, gpuUsedSum_ex, gpuTotalSum_ex]
  have hA : gpuHasAny [gpuEx1, gpuEx2] = true := by decide
  rw [hA]
  norm_num [pyTrunc]

def gpuOnlyUsed : Hardware :=
  .mk "GpuNvidia" "NVIDIA GeForce RTX"
    [⟨"SmallData", "GPU Memory Used", "/gpu/2/smalldata/2", some 500⟩] []

def gpuOnlyTotal : Hardware :=
  .mk "GpuNvidia" "NVIDIA GeForce RTX"
    [⟨"SmallData", "GPU Memory Total", "/gpu/3/smalldata/3", some 2000⟩] []

lemma gpuOnlyUsed_sums : gpuUsedSum [gpuOnlyUsed] = 500000000
    ∧ gpuTotalSum [gpuOnlyUsed] = 0 := by
  have h : gpuLocal gpuOnlyUsed = (some 500, none, none) := by decide
  constructor
  · simp +decide [gpuUsedSum, gpuNodeList, gpuUsedEff, h]
    norm_num
  · simp +decide [gpuTotalSum, gpuNodeList, gpuTotalLocal, h]

lemma gpuOnlyTotal_sums : gpuUsedSum [gpuOnlyTotal] = 0
    ∧ gpuTotalSum [gpuOnlyTotal] = 2000000000 := by
  have h : gpuLocal gpuOnlyTotal = (none, some 2000, none) := by decide
  constructor
  · simp +decide [gpuUsedSum, gpuNodeList, gpuUsedEff, h]
  · simp +decide [gpuTotalSum, gpuNodeList, gpuTotalLocal, h]
    norm_num

/-- C10: whenever gpu_mem_used_total_bytes finds any contributing GPU data,
the used component of its result is present and non-negative, equal to 0
when no node contributed a used value (only total sensors found), while the
total component is absent exactly when the accumulated total is not
strictly positive; so a GPU reporting only used yields (used, absent) and a
GPU reporting only a positive total yields (0, total). -/
theorem gpu_components_spec :
    (∀ (ok : Bool) (hws : List Hardware), ok = true → gpuHasAny hws = true →
      (gpu_mem_used_total_bytes ok hws).1.isSome = true
        ∧ 0 ≤ ((gpu_mem_used_total_bytes ok hws).1.getD 0)
        ∧ ((∀ hw ∈ gpuNodeList hws, gpuUsedEff hw = none) →
             (gpu_mem_used_total_bytes ok hws).1 = some 0)
        ∧ ((gpu_mem_used_total_bytes ok hws).2 = none ↔ ¬0 < gpuTotalSum hws))
    ∧ gpu_mem_used_total_bytes true [gpuOnlyUsed] = (some 500000000, none)
    ∧ gpu_mem_used_total_bytes true [gpuOnlyTotal] = (some 0, some 2000000000) := by
  refine ⟨?_, ?_, ?_⟩
  · intro ok hws hok hA
    subst hok
    rw [gpu_mem_eq_spec, hA]
    simp only [Bool.true_and, if_true]
    refine ⟨rfl, ?_, ?_, ?_⟩
    · simp only [Option.getD_some]
      split
      · unfold pyTrunc
        rw [if_pos (by assumption)]
        exact Int.floor_nonneg.mpr (by assumption)
      · exact le_refl 0
    · intro hnone
      have hzero : (gpuNodeList hws).filterMap gpuUsedEff = [] :=
        List.filterMap_eq_nil_iff.mpr hnone
      have hsum : gpuUsedSum hws = 0 := by
        simp [gpuUsedSum, hzero]
      rw [hsum]
      norm_num [pyTrunc]
    · split
      · simp only [reduceCtorEq, false_iff, not_not]
        assumption
      · simp only [true_iff]
        assumption
  · rw [gpu_mem_eq_spec, gpuOnlyUsed_sums.1, gpuOnlyUsed_sums.2]
    have hA : gpuHasAny [gpuOnlyUsed] = true := by decide
    rw [hA]
    norm_num [pyTrunc]
  · rw [gpu_mem_eq_spec, gpuOnlyTotal_sums.1, gpuOnlyTotal_sums.2]
    have hA : gpuHasAny [gpuOnlyTotal] = true := by decide
    rw [hA]
    norm_num [pyTrunc]

/-- Witness for C10: with the only-total GPU node, the theorem applies
(hypotheses hold by evaluation) and the total component is present exactly
because the accumulated total is positive. -/
theorem gpu_components_spec_witness :
    (gpu_mem_used_total_bytes true [gpuOnlyTotal]).2 = none
      ↔ ¬0 < gpuTotalSum [gpuOnlyTotal] :=
  (gpu_components_spec.1 true [gpuOnlyTotal] rfl (by decide)).2.2.2

/-! ### C9: CPU effective frequency -/

/-- C9 amended: cpu_effective_freq_mhz returns the arithmetic mean of the
strictly positive present values of the clock sensors on CPU nodes whose
lower-cased name contains effective or starts with core # (the pickEff
filter), and absent when there are none such (or the backend is down). -/
theorem cpu_effective_freq_spec (ok : Bool) (hws : List Hardware) :
    cpu_effective_freq_mhz ok hws
      = if ok then
          (if effClockVals hws = [] then none
           else some ((effClockVals hws).sum / (effClockVals hws).length))
        else none := by
  cases ok
  · rfl
  · simp only [cpu_effective_freq_mhz, Bool.not_true, Bool.false_eq_true,
      if_false, if_true, cpuEff_fold, List.nil_append, List.isEmpty_iff]

def cpuEx : Hardware :=
  .mk "Cpu" "AMD Ryzen 9"
    [⟨"Clock", "Core #1 (Effective)", "/amdcpu/0/clock/10", some 0⟩,
     ⟨"Clock", "Core #1", "/amdcpu/0/clock/1", some 3000⟩] []

/-- Counterexample to C9 as stated: on a CPU whose effective clock sensor
reads 0 while the plain Core #1 clock reads 3000, the code returns 3000
(it drops non-positive values and also admits core-prefixed names), while
the mean of the values of all effective clock sensors as the claim states
it is 0. -/
theorem cpu_effective_freq_counterexample :
    cpu_effective_freq_mhz true [cpuEx] = some 3000
    ∧ claimEffectiveMean [cpuEx] = some 0 := by
  constructor
  · have hv : effClockVals [cpuEx] = [3000] := by
      simp +decide [effClockVals, cpuEx, pickEff, Hardware.sensors,
        Hardware.hardwareType]
    simp only [cpu_effective_freq_mhz, Bool.not_true, Bool.false_eq_true,
      if_false, cpuEff_fold, List.nil_append, hv]
    norm_num
  · simp +decide [claimEffectiveMean, cpuEx, Hardware.sensors,
      Hardware.hardwareType]

end WebMonitor
